import Mathlib

/-!
Verification of the credential-resolution core of `cmd/kes` (`init.go`):
the `newClient` routine that turns environment state into a TLS client
identity, together with its helpers `decodePrivateKey` and `isTerm`.

The embedding is shallow: external collaborators (the OS environment,
`os.ReadFile`, `https.FilterPEM`, `kes.ParseAPIKey`,
`kes.GenerateCertificate`, `x509.IsEncryptedPEMBlock`,
`x509.DecryptPEMBlock`, `term.ReadPassword`, `tls.X509KeyPair`) are
oracles collected in a `World` record, and `newClient` is a pure function
of a `World` that returns the list of observable side effects it performed
(file reads, writes to standard error, the password read) together with
either the resulting client or the message passed to `cli.Fatalf`
(which terminates the process, hence `Except`).

A byte buffer holding PEM data is abstracted as the sequence of PEM
blocks `pem.Decode` would successively yield from it: `pem.Decode` skips
leading garbage and returns `nil` once no further block decodes, and the
scanning loop of `decodePrivateKey` treats an exhausted buffer and an
undecodable remainder identically, so the block list is a faithful
abstraction of the byte-level scan.
-/

deriving instance DecidableEq for Except

namespace KesInit

/-- A PEM block (`encoding/pem.Block`): type tag, optional headers
(legacy encryption uses `Proc-Type`/`DEK-Info` headers) and payload
bytes, abstracted as a string. -/
structure Block where
  type : String
  headers : List (String × String)
  bytes : String
deriving DecidableEq

/-- An X.509 certificate / TLS key pair, abstract (its internals are the
business of the external crypto collaborators). -/
abbrev Cert := String

/-- The fields of `crypto/tls.Config` that the shown code could touch.
`newClient` sets only `Certificates` and `InsecureSkipVerify`; the
remaining modelled fields keep their Go zero values (system defaults). -/
structure TLSConfig where
  certificates : List Cert
  insecureSkipVerify : Bool
  cipherSuites : List Nat := []
  minVersion : Option Nat := none
  rootCAs : Option String := none
deriving DecidableEq

/-- The result of `kes.NewClientWithConfig`: the endpoint address and the
TLS configuration handed to it. -/
structure Client where
  addr : String
  config : TLSConfig
deriving DecidableEq

/-- Outcome of `x509.DecryptPEMBlock`: the distinguished
`x509.IncorrectPasswordError` versus any other failure. -/
inductive DecryptError where
  | incorrectPassword
  | other (msg : String)
deriving DecidableEq

/-- Observable side effects of `newClient` beyond environment lookups:
file reads (`os.ReadFile path`), writes to standard error
(`fmt.Fprint(os.Stderr, s)`; `newClient` never writes to standard
output), the no-echo terminal password read (`term.ReadPassword` on the
standard-error descriptor), API-key parsing (`kes.ParseAPIKey`) and
certificate derivation (`kes.GenerateCertificate`). -/
inductive Effect where
  | fileRead (path : String)
  | writeStderr (s : String)
  | readPassword
  | parseAPIKeyEff
  | generateCertEff
deriving DecidableEq

/-- The ambient world `newClient` runs in: the process environment and
the behaviour of each external collaborator it calls. `stderrIsTerm`
records whether standard error is an interactive terminal
(`term.IsTerminal` on its descriptor). -/
structure World where
  env : String → Option String
  readFile : String → Except String (List Block)
  filterCert : List Block → Except String (List Block)
  parseAPIKey : String → Except String String
  generateCertificate : String → Except String Cert
  isEncryptedPEMBlock : Block → Bool
  stderrIsTerm : Bool
  readPasswordResult : Except String String
  decryptPEMBlock : Block → String → Except DecryptError String
  x509KeyPair : List Block → List Block → Except String Cert

/-- `DefaultServer` (init.go:217). -/
def DefaultServer : String := "https://127.0.0.1:7373"

/-- `EnvServer` (init.go:219). -/
def EnvServer : String := "KES_SERVER"

/-- `EnvAPIKey` (init.go:220). -/
def EnvAPIKey : String := "KES_API_KEY"

/-- `EnvClientKey` (init.go:221). -/
def EnvClientKey : String := "KES_CLIENT_KEY"

/-- `EnvClientCert` (init.go:222). -/
def EnvClientCert : String := "KES_CLIENT_CERT"

/-- `isTerm` (init.go:327), applied to `os.Stderr`. -/
def isTerm (w : World) : Bool := w.stderrIsTerm

/-- `strings.HasSuffix`: the second string ends with the first. -/
def hasSuffixStr (suffix s : String) : Bool :=
  List.isSuffixOf suffix.data s.data

/-- The match test of `decodePrivateKey` (init.go:337): type is exactly
"PRIVATE KEY" or ends with " PRIVATE KEY". -/
def isPrivateKeyType (t : String) : Bool :=
  t == "PRIVATE KEY" || hasSuffixStr " PRIVATE KEY" t

/-- `ErrNoPrivateKey` (init.go:330). -/
def ErrNoPrivateKey : String := "no PEM-encoded private key found"

/-- `decodePrivateKey` (init.go:329-343): scan the decoded PEM stream
left to right and return the first block whose type matches
`isPrivateKeyType`; fail with `ErrNoPrivateKey` when the stream is
exhausted (which covers both an empty buffer and a buffer whose
remainder `pem.Decode` cannot decode). -/
def decodePrivateKey : List Block → Except String Block
  | [] => .error ErrNoPrivateKey
  | b :: rest =>
    if isPrivateKeyType b.type then .ok b else decodePrivateKey rest

/-- The server address of both success paths (init.go:241-244 and
309-312): `DefaultServer` unless `EnvServer` is set, in which case the
supplied value is used verbatim. -/
def serverAddr (w : World) : String :=
  match w.env EnvServer with
  | some env => env
  | none => DefaultServer

/-- `kes.NewClientWithConfig` call sites (init.go:245-248 and 313-316):
the address plus a TLS config holding exactly the one certificate and
the skip-verification flag. -/
def mkClient (w : World) (insecureSkipVerify : Bool) (cert : Cert) : Client :=
  { addr := serverAddr w
    config := { certificates := [cert], insecureSkipVerify := insecureSkipVerify } }

/-- `strings.TrimSpace` as used at init.go:255 and 263: the string with
leading and trailing whitespace removed. -/
def trimSpace (s : String) : String :=
  String.mk (((s.data.dropWhile Char.isWhitespace).reverse.dropWhile Char.isWhitespace).reverse)

/-- The password prompt text (init.go:287). -/
def promptText : String := "Enter password for private key: "

/-- The file-pair tail of `newClient` (init.go:267-317), entered once
both paths are validated: read and filter the certificate file, read the
key file, locate the private-key block, unlock it if legacy-encrypted
(prompting on standard error), and assemble the key pair. -/
def loadFilePair (w : World) (insecureSkipVerify : Bool) (certPath keyPath : String) :
    List Effect × Except String Client :=
  match w.readFile certPath with
  | .error e => ([.fileRead certPath], .error ("failed to load TLS certificate: " ++ e))
  | .ok certPem0 =>
    match w.filterCert certPem0 with
    | .error e => ([.fileRead certPath], .error ("failed to load TLS certificate: " ++ e))
    | .ok certPem =>
      match w.readFile keyPath with
      | .error e =>
        ([.fileRead certPath, .fileRead keyPath],
          .error ("failed to load TLS private key: " ++ e))
      | .ok keyPem =>
        match decodePrivateKey keyPem with
        | .error e =>
          ([.fileRead certPath, .fileRead keyPath],
            .error ("failed to read TLS private key: " ++ e))
        | .ok privateKey =>
          if 0 < privateKey.headers.length ∧ w.isEncryptedPEMBlock privateKey = true then
            match w.readPasswordResult with
            | .error e =>
              ([.fileRead certPath, .fileRead keyPath,
                  .writeStderr promptText, .readPassword],
                .error ("failed to read private key password: " ++ e))
            | .ok password =>
              match w.decryptPEMBlock privateKey password with
              | .error .incorrectPassword =>
                ([.fileRead certPath, .fileRead keyPath,
                    .writeStderr promptText, .readPassword, .writeStderr "\n"],
                  .error "incorrect password")
              | .error (.other e) =>
                ([.fileRead certPath, .fileRead keyPath,
                    .writeStderr promptText, .readPassword, .writeStderr "\n"],
                  .error ("failed to decrypt private key: " ++ e))
              | .ok decPrivateKey =>
                match w.x509KeyPair certPem
                    [{ type := privateKey.type, headers := [], bytes := decPrivateKey }] with
                | .error e =>
                  ([.fileRead certPath, .fileRead keyPath,
                      .writeStderr promptText, .readPassword, .writeStderr "\n"],
                    .error ("failed to load TLS private key or certificate: " ++ e))
                | .ok cert =>
                  ([.fileRead certPath, .fileRead keyPath,
                      .writeStderr promptText, .readPassword, .writeStderr "\n"],
                    .ok (mkClient w insecureSkipVerify cert))
          else
            match w.x509KeyPair certPem keyPem with
            | .error e =>
              ([.fileRead certPath, .fileRead keyPath],
                .error ("failed to load TLS private key or certificate: " ++ e))
            | .ok cert =>
              ([.fileRead certPath, .fileRead keyPath],
                .ok (mkClient w insecureSkipVerify cert))

/-- `newClient` (init.go:216-317): resolve a credential source from the
environment. If the API key is set, reject a simultaneously set
certificate or key variable, then parse the key and derive a
certificate; otherwise require non-blank certificate and key paths and
load the file pair. -/
def newClient (w : World) (insecureSkipVerify : Bool) :
    List Effect × Except String Client :=
  match w.env EnvAPIKey with
  | some apiKey =>
    if (w.env EnvClientCert).isSome then
      ([], .error ("two conflicting environment variables set: unset either '" ++
        EnvAPIKey ++ "' or '" ++ EnvClientCert ++ "'"))
    else if (w.env EnvClientKey).isSome then
      ([], .error ("two conflicting environment variables set: unset either '" ++
        EnvAPIKey ++ "' or '" ++ EnvClientKey ++ "'"))
    else
      match w.parseAPIKey apiKey with
      | .error e => ([.parseAPIKeyEff], .error ("invalid API key: " ++ e))
      | .ok key =>
        match w.generateCertificate key with
        | .error e =>
          ([.parseAPIKeyEff, .generateCertEff],
            .error ("failed to generate client certificate from API key: " ++ e))
        | .ok cert =>
          ([.parseAPIKeyEff, .generateCertEff], .ok (mkClient w insecureSkipVerify cert))
  | none =>
    match w.env EnvClientCert with
    | none =>
      ([], .error ("no TLS client certificate. Environment variable '" ++
        EnvClientCert ++ "' is not set"))
    | some certPath =>
      if trimSpace certPath = "" then
        ([], .error ("no TLS client certificate. Environment variable '" ++
          EnvClientCert ++ "' is empty"))
      else
        match w.env EnvClientKey with
        | none =>
          ([], .error ("no TLS private key. Environment variable '" ++
            EnvClientKey ++ "' is not set"))
        | some keyPath =>
          if trimSpace keyPath = "" then
            ([], .error ("no TLS private key. Environment variable '" ++
              EnvClientKey ++ "' is empty"))
          else loadFilePair w insecureSkipVerify certPath keyPath

/-! ### Concrete worlds used by witnesses and counterexamples -/

/-- An environment holding exactly the given bindings. -/
def envOf (l : List (String × String)) : String → Option String := fun s =>
  (l.find? (fun p => p.1 == s)).map Prod.snd

/-- A benign default world; individual test worlds override fields. -/
def baseWorld : World where
  env := fun _ => none
  readFile := fun _ => .error "open: no such file or directory"
  filterCert := fun bs => .ok (bs.filter (fun b => b.type == "CERTIFICATE"))
  parseAPIKey := fun s => .ok s
  generateCertificate := fun k => .ok ("cert-of-" ++ k)
  isEncryptedPEMBlock := fun b => b.headers.any (fun h => h.1 == "DEK-Info")
  stderrIsTerm := true
  readPasswordResult := .ok "pw"
  decryptPEMBlock := fun _ _ => .ok "decrypted"
  x509KeyPair := fun _ _ => .ok "keypair"

/-- A plain certificate block. -/
def certBlock : Block := { type := "CERTIFICATE", headers := [], bytes := "certbytes" }

/-- A legacy-encrypted RSA private-key block (encryption headers set). -/
def encKeyBlock : Block :=
  { type := "RSA PRIVATE KEY"
    headers := [("Proc-Type", "4,ENCRYPTED"), ("DEK-Info", "AES-128-CBC,0001")]
    bytes := "encbytes" }

/-- A plain (unencrypted) private-key block. -/
def plainKeyBlock : Block := { type := "PRIVATE KEY", headers := [], bytes := "keybytes" }

/-- File system holding a certificate file and a legacy-encrypted key file. -/
def encFiles : String → Except String (List Block) := fun p =>
  if p == "c.pem" then .ok [certBlock]
  else if p == "k.pem" then .ok [encKeyBlock]
  else .error "open: no such file or directory"

/-! ### C1: conflicting environment variables -/

/-- C1: in every environment where the API-key variable is set together
with the client-certificate or the client-key variable, `newClient`
fails with the "two conflicting environment variables set" error naming
the conflicting pair (the certificate pair when that variable is set,
else the key pair), and its effect trace is empty: no file read, no
API-key parsing, no certificate generation, no terminal interaction
happens before the failure. -/
theorem newClient_conflict (w : World) (flag : Bool)
    (hapi : (w.env EnvAPIKey).isSome = true)
    (hconf : (w.env EnvClientCert).isSome = true ∨ (w.env EnvClientKey).isSome = true) :
    newClient w flag =
      ([], .error (if (w.env EnvClientCert).isSome then
        "two conflicting environment variables set: unset either '" ++
          EnvAPIKey ++ "' or '" ++ EnvClientCert ++ "'"
      else
        "two conflicting environment variables set: unset either '" ++
          EnvAPIKey ++ "' or '" ++ EnvClientKey ++ "'")) := by
  rcases h : w.env EnvAPIKey with _ | apiKey
  · rw [h] at hapi; simp at hapi
  · rcases hc : (w.env EnvClientCert).isSome with _ | _
    · rcases hk : (w.env EnvClientKey).isSome with _ | _
      · rcases hconf with h1 | h1
        · rw [hc] at h1; simp at h1
        · rw [hk] at h1; simp at h1
      · simp [newClient, h, hc, hk]
    · simp [newClient, h, hc]

/-- Witness for C1: with `KES_API_KEY` and `KES_CLIENT_CERT` both set,
`newClient` returns the conflict error naming that pair, with an empty
effect trace. -/
def w1 : World := { baseWorld with
  env := envOf [("KES_API_KEY", "k"), ("KES_CLIENT_CERT", "c.pem")] }

theorem newClient_conflict_witness :
    (w1.env EnvAPIKey).isSome = true ∧
    (w1.env EnvClientCert).isSome = true ∧
    newClient w1 false =
      ([], .error (if (w1.env EnvClientCert).isSome then
        "two conflicting environment variables set: unset either '" ++
          EnvAPIKey ++ "' or '" ++ EnvClientCert ++ "'"
      else
        "two conflicting environment variables set: unset either '" ++
          EnvAPIKey ++ "' or '" ++ EnvClientKey ++ "'")) :=
  ⟨by decide, by decide, newClient_conflict w1 false (by decide) (Or.inl (by decide))⟩

/-! ### C4: the private-key PEM scan -/

/-- C4: for every PEM-block stream, `decodePrivateKey` returns the first
block, scanning left to right, whose type is exactly "PRIVATE KEY" or
ends with " PRIVATE KEY", silently skipping blocks of other types; when
no such block exists (in particular when the stream holds no decodable
block at all) it fails with "no PEM-encoded private key found". -/
theorem decodePrivateKey_first_match (bs : List Block) :
    decodePrivateKey bs =
      match bs.find? (fun b => isPrivateKeyType b.type) with
      | some b => .ok b
      | none => .error "no PEM-encoded private key found" := by
  induction bs with
  | nil => rfl
  | cons b rest ih =>
    by_cases hb : isPrivateKeyType b.type
    · simp [decodePrivateKey, List.find?, hb]
    · simp only [decodePrivateKey, List.find?, hb, if_neg, Bool.false_eq_true, ite_false]
      simpa [hb] using ih

/-! ### The shape of every successful resolution -/

/-- Every successful run of the file-pair tail produces a client built
by `mkClient` from some certificate. -/
theorem loadFilePair_ok (w : World) (flag : Bool) (cp kp : String) (c : Client)
    (h : (loadFilePair w flag cp kp).2 = .ok c) :
    ∃ cert, c = mkClient w flag cert := by
  unfold loadFilePair at h
  repeat' split at h
  all_goals first
    | exact Except.noConfusion h
    | exact ⟨_, (Except.ok.inj h).symm⟩

/-- Every successful run of `newClient` produces a client built by
`mkClient` from some certificate. -/
theorem newClient_ok (w : World) (flag : Bool) (c : Client)
    (h : (newClient w flag).2 = .ok c) :
    ∃ cert, c = mkClient w flag cert := by
  unfold newClient at h
  repeat' split at h
  all_goals first
    | exact Except.noConfusion h
    | exact ⟨_, (Except.ok.inj h).symm⟩
    | exact loadFilePair_ok w flag _ _ c h

/-! ### C6: the server address -/

/-- C6: in every successful resolution (API-key path or file-pair path),
the address handed to the client is the fixed local endpoint
"https://127.0.0.1:7373" exactly when the server-address variable is
absent, and otherwise is the supplied value verbatim, an explicitly
empty string included. -/
theorem newClient_serverAddr (w : World) (flag : Bool) (c : Client)
    (h : (newClient w flag).2 = .ok c) :
    (w.env EnvServer = none → c.addr = "https://127.0.0.1:7373") ∧
    (∀ v, w.env EnvServer = some v → c.addr = v) := by
  obtain ⟨cert, rfl⟩ := newClient_ok w flag c h
  constructor
  · intro hs; simp [mkClient, serverAddr, hs, DefaultServer]
  · intro v hs; simp [mkClient, serverAddr, hs]

/-- Witness for C6: with the API key set and `KES_SERVER` explicitly the
empty string, resolution succeeds and the address is the empty string
verbatim. -/
def w6 : World := { baseWorld with
  env := envOf [("KES_API_KEY", "k"), ("KES_SERVER", "")] }

theorem newClient_serverAddr_witness :
    (newClient w6 false).2 = .ok (mkClient w6 false "cert-of-k") ∧
    w6.env EnvServer = some "" ∧
    (mkClient w6 false "cert-of-k").addr = "" :=
  ⟨by decide, by decide,
    (newClient_serverAddr w6 false (mkClient w6 false "cert-of-k") (by decide)).2 "" (by decide)⟩

/-! ### C7: the TLS configuration -/

/-- C7: in every successful resolution, the TLS configuration holds
exactly one certificate and the caller's skip-verification flag, and
every other modelled field keeps its zero value (cipher suites, minimum
version and trust roots are left to system defaults). -/
theorem newClient_tlsConfig (w : World) (flag : Bool) (c : Client)
    (h : (newClient w flag).2 = .ok c) :
    c.config.certificates.length = 1 ∧
    c.config.insecureSkipVerify = flag ∧
    c.config.cipherSuites = [] ∧
    c.config.minVersion = none ∧
    c.config.rootCAs = none := by
  obtain ⟨cert, rfl⟩ := newClient_ok w flag c h
  simp [mkClient]

/-- Witness for C7: a successful API-key run with the flag set carries
one certificate, the flag, and zero values elsewhere. -/
def w7 : World := { baseWorld with env := envOf [("KES_API_KEY", "k")] }

theorem newClient_tlsConfig_witness :
    (newClient w7 true).2 = .ok (mkClient w7 true "cert-of-k") ∧
    ((mkClient w7 true "cert-of-k").config.certificates.length = 1 ∧
      (mkClient w7 true "cert-of-k").config.insecureSkipVerify = true ∧
      (mkClient w7 true "cert-of-k").config.cipherSuites = [] ∧
      (mkClient w7 true "cert-of-k").config.minVersion = none ∧
      (mkClient w7 true "cert-of-k").config.rootCAs = none) :=
  ⟨by decide, newClient_tlsConfig w7 true (mkClient w7 true "cert-of-k") (by decide)⟩

/-! ### C9: the API-key path touches neither filesystem nor terminal -/

/-- C9: in every environment where the API-key variable is set and
neither file-path variable is, every effect `newClient` performs is
API-key parsing or certificate derivation: it reads no file, writes
nothing to standard error and reads no password. -/
theorem newClient_apiKeyPath_effects (w : World) (flag : Bool) (k : String)
    (hapi : w.env EnvAPIKey = some k)
    (hcert : w.env EnvClientCert = none)
    (hkey : w.env EnvClientKey = none) :
    ∀ e ∈ (newClient w flag).1,
      e = Effect.parseAPIKeyEff ∨ e = Effect.generateCertEff := by
  simp only [newClient, hapi, hcert, hkey, Option.isSome_none,
    Bool.false_eq_true, if_false]
  rcases hp : w.parseAPIKey k with e | key
  · simp [hp]
  · rcases hg : w.generateCertificate key with e | cert <;> simp [hp, hg]

/-- Witness for C9: with only the API key set, the effect trace holds
only the parse and derivation effects. -/
def w9 : World := { baseWorld with env := envOf [("KES_API_KEY", "k")] }

theorem newClient_apiKeyPath_effects_witness :
    w9.env EnvAPIKey = some "k" ∧ w9.env EnvClientCert = none ∧
    ∀ e ∈ (newClient w9 false).1,
      e = Effect.parseAPIKeyEff ∨ e = Effect.generateCertEff :=
  ⟨by decide, by decide,
    newClient_apiKeyPath_effects w9 false "k" (by decide) (by decide) (by decide)⟩

/-! ### C10: whitespace-only path values count as empty -/

/-- C10: a present client-certificate or client-key path that is nonempty
but trims to the empty string (a whitespace-only value) is reported with
the "variable is empty" error, with an empty effect trace: no file is
opened at that path. Emptiness is judged after trimming whitespace. -/
theorem newClient_blankPath_empty (w : World) (flag : Bool)
    (hapi : w.env EnvAPIKey = none) :
    (∀ cp, w.env EnvClientCert = some cp → cp ≠ "" → trimSpace cp = "" →
      newClient w flag = ([], .error ("no TLS client certificate. Environment variable '" ++
        EnvClientCert ++ "' is empty"))) ∧
    (∀ cp kp, w.env EnvClientCert = some cp → trimSpace cp ≠ "" →
      w.env EnvClientKey = some kp → kp ≠ "" → trimSpace kp = "" →
      newClient w flag = ([], .error ("no TLS private key. Environment variable '" ++
        EnvClientKey ++ "' is empty"))) := by
  constructor
  · intro cp hcp _ htrim
    simp [newClient, hapi, hcp, htrim]
  · intro cp kp hcp hcpne hkp _ htrim
    simp [newClient, hapi, hcp, hcpne, hkp, htrim]

/-- Witness for C10: a certificate path of three spaces is rejected as
empty with no file read. -/
def w10 : World := { baseWorld with env := envOf [("KES_CLIENT_CERT", "   ")] }

theorem newClient_blankPath_empty_witness :
    w10.env EnvAPIKey = none ∧ w10.env EnvClientCert = some "   " ∧
    newClient w10 false = ([], .error ("no TLS client certificate. Environment variable '" ++
      EnvClientCert ++ "' is empty")) :=
  ⟨by decide, by decide,
    (newClient_blankPath_empty w10 false (by decide)).1 "   " (by decide)
      (by decide) (by decide)⟩

/-! ### C3: absent-versus-empty errors, variable by variable -/

/-- C3 counterexample: the claim asserts that each of the four variables
yields its own "not set" / "is empty" errors, the server address
included; but with the server-address variable absent (API key set, file
paths unset) `newClient` succeeds with the default address and raises no
"variable not set" error for it at all. -/
def w3 : World := { baseWorld with env := envOf [("KES_API_KEY", "k")] }

theorem newClient_serverAbsent_succeeds :
    w3.env EnvServer = none ∧
    (newClient w3 false).2 =
      .ok { addr := "https://127.0.0.1:7373"
            config := { certificates := ["cert-of-k"], insecureSkipVerify := false } } := by
  decide

/-- C3 amended: only the client-certificate and client-key variables
carry the distinct "not set" versus "is empty" error names; each of
absence and blankness of either path variable produces its own named
error (the certificate variable is checked first). -/
theorem newClient_pathVars_absent_vs_empty (w : World) (flag : Bool)
    (hapi : w.env EnvAPIKey = none) :
    (w.env EnvClientCert = none →
      newClient w flag = ([], .error ("no TLS client certificate. Environment variable '" ++
        EnvClientCert ++ "' is not set"))) ∧
    (∀ cp, w.env EnvClientCert = some cp → trimSpace cp = "" →
      newClient w flag = ([], .error ("no TLS client certificate. Environment variable '" ++
        EnvClientCert ++ "' is empty"))) ∧
    (∀ cp, w.env EnvClientCert = some cp → trimSpace cp ≠ "" →
      w.env EnvClientKey = none →
      newClient w flag = ([], .error ("no TLS private key. Environment variable '" ++
        EnvClientKey ++ "' is not set"))) ∧
    (∀ cp kp, w.env EnvClientCert = some cp → trimSpace cp ≠ "" →
      w.env EnvClientKey = some kp → trimSpace kp = "" →
      newClient w flag = ([], .error ("no TLS private key. Environment variable '" ++
        EnvClientKey ++ "' is empty"))) := by
  refine ⟨fun hc => ?_, fun cp hc ht => ?_, fun cp hc ht hk => ?_,
    fun cp kp hc ht hk htk => ?_⟩
  · simp [newClient, hapi, hc]
  · simp [newClient, hapi, hc, ht]
  · simp [newClient, hapi, hc, ht, hk]
  · simp [newClient, hapi, hc, ht, hk, htk]

/-- Witness for the amended C3: with nothing set, the certificate
variable is reported as not set. -/
theorem newClient_pathVars_absent_vs_empty_witness :
    baseWorld.env EnvAPIKey = none ∧ baseWorld.env EnvClientCert = none ∧
    newClient baseWorld false =
      ([], .error ("no TLS client certificate. Environment variable '" ++
        EnvClientCert ++ "' is not set")) :=
  ⟨by decide, by decide,
    (newClient_pathVars_absent_vs_empty baseWorld false (by decide)).1 (by decide)⟩

/-! ### C2: the prompt and a non-interactive standard error -/

/-- C2: the claim says that with a legacy-encrypted key block and a
non-interactive standard error the password prompt is never attempted.
The code never consults `isTerm`: in a world whose standard error is not
a terminal it still writes the prompt and calls the password read, as
this concrete run shows (the read then fails and resolution aborts with
the password-read error, rather than the prompt being skipped). -/
def w2 : World := { baseWorld with
  env := envOf [("KES_CLIENT_CERT", "c.pem"), ("KES_CLIENT_KEY", "k.pem")]
  readFile := encFiles
  stderrIsTerm := false
  readPasswordResult := .error "inappropriate ioctl for device" }

theorem newClient_prompts_despite_noninteractive :
    isTerm w2 = false ∧
    Effect.writeStderr promptText ∈ (newClient w2 false).1 ∧
    Effect.readPassword ∈ (newClient w2 false).1 ∧
    (newClient w2 false).2 =
      .error "failed to read private key password: inappropriate ioctl for device" := by
  decide

/-! ### C5: incorrect password versus other decryption failures -/

/-- When the API key is unset and both file paths are set and non-blank,
`newClient` runs the file-pair tail. -/
theorem newClient_filePath (w : World) (flag : Bool) (cp kp : String)
    (hapi : w.env EnvAPIKey = none)
    (hcp : w.env EnvClientCert = some cp) (hcpt : trimSpace cp ≠ "")
    (hkp : w.env EnvClientKey = some kp) (hkpt : trimSpace kp ≠ "") :
    newClient w flag = loadFilePair w flag cp kp := by
  simp [newClient, hapi, hcp, hcpt, hkp, hkpt]

/-- C5: whenever resolution reaches decryption of the matched
legacy-encrypted key block and decryption fails, the distinguished
incorrect-password failure yields exactly "incorrect password" with no
further detail, while any other failure yields "failed to decrypt
private key" with the underlying error appended. -/
theorem newClient_decrypt_errors (w : World) (flag : Bool) (cp kp : String)
    (certPem certPemF keyPem : List Block) (pk : Block) (pw : String) (derr : DecryptError)
    (hapi : w.env EnvAPIKey = none)
    (hcp : w.env EnvClientCert = some cp) (hcpt : trimSpace cp ≠ "")
    (hkp : w.env EnvClientKey = some kp) (hkpt : trimSpace kp ≠ "")
    (hrc : w.readFile cp = .ok certPem)
    (hfc : w.filterCert certPem = .ok certPemF)
    (hrk : w.readFile kp = .ok keyPem)
    (hdec : decodePrivateKey keyPem = .ok pk)
    (hhdr : 0 < pk.headers.length)
    (henc : w.isEncryptedPEMBlock pk = true)
    (hpw : w.readPasswordResult = .ok pw)
    (hfail : w.decryptPEMBlock pk pw = .error derr) :
    (derr = .incorrectPassword →
      (newClient w flag).2 = .error "incorrect password") ∧
    (∀ e, derr = .other e →
      (newClient w flag).2 = .error ("failed to decrypt private key: " ++ e)) := by
  rw [newClient_filePath w flag cp kp hapi hcp hcpt hkp hkpt]
  unfold loadFilePair
  simp only [hrc, hfc, hrk, hdec]
  rw [if_pos ⟨hhdr, henc⟩]
  simp only [hpw, hfail]
  constructor
  · rintro rfl; rfl
  · rintro e rfl; rfl

/-- Witness for C5: a world whose decryption reports the distinguished
incorrect-password error produces exactly "incorrect password". -/
def w5 : World := { baseWorld with
  env := envOf [("KES_CLIENT_CERT", "c.pem"), ("KES_CLIENT_KEY", "k.pem")]
  readFile := encFiles
  decryptPEMBlock := fun _ _ => .error .incorrectPassword }

theorem newClient_decrypt_errors_witness :
    w5.decryptPEMBlock encKeyBlock "pw" = .error .incorrectPassword ∧
    (newClient w5 false).2 = .error "incorrect password" :=
  ⟨by decide,
    (newClient_decrypt_errors w5 false "c.pem" "k.pem" [certBlock] [certBlock]
      [encKeyBlock] encKeyBlock "pw" .incorrectPassword
      (by decide) (by decide) (by decide) (by decide) (by decide) (by decide)
      (by decide) (by decide) (by decide) (by decide) (by decide) (by decide)
      (by decide)).1 rfl⟩

/-! ### C8: the prompt, the no-echo read and the trailing newline -/

/-- C8 counterexample: the claim says the trailing newline is emitted
"regardless of whether the password read or the subsequent decryption
succeeds or fails"; but when the password read itself fails, resolution
aborts before the newline is written: the trace holds the prompt and the
read yet no newline. -/
def w8 : World := { baseWorld with
  env := envOf [("KES_CLIENT_CERT", "c.pem"), ("KES_CLIENT_KEY", "k.pem")]
  readFile := encFiles
  readPasswordResult := .error "read failed" }

theorem newClient_no_newline_after_failed_read :
    Effect.writeStderr promptText ∈ (newClient w8 false).1 ∧
    Effect.readPassword ∈ (newClient w8 false).1 ∧
    Effect.writeStderr "\n" ∉ (newClient w8 false).1 ∧
    (newClient w8 false).2 = .error "failed to read private key password: read failed" := by
  decide

/-- C8 amended: whenever the prompt is entered, the prompt text goes to
the error stream (never standard output, to which `newClient` writes
nothing) followed by the no-echo password read; and after a successful
read a trailing newline goes to the error stream regardless of whether
the subsequent decryption or key-pair assembly succeeds or fails. When
the read itself fails, resolution aborts without the newline. -/
theorem newClient_prompt_then_newline (w : World) (flag : Bool) (cp kp : String)
    (certPem certPemF keyPem : List Block) (pk : Block) (pw : String)
    (hapi : w.env EnvAPIKey = none)
    (hcp : w.env EnvClientCert = some cp) (hcpt : trimSpace cp ≠ "")
    (hkp : w.env EnvClientKey = some kp) (hkpt : trimSpace kp ≠ "")
    (hrc : w.readFile cp = .ok certPem)
    (hfc : w.filterCert certPem = .ok certPemF)
    (hrk : w.readFile kp = .ok keyPem)
    (hdec : decodePrivateKey keyPem = .ok pk)
    (hhdr : 0 < pk.headers.length)
    (henc : w.isEncryptedPEMBlock pk = true)
    (hpw : w.readPasswordResult = .ok pw) :
    (newClient w flag).1 = [.fileRead cp, .fileRead kp,
      .writeStderr promptText, .readPassword, .writeStderr "\n"] := by
  rw [newClient_filePath w flag cp kp hapi hcp hcpt hkp hkpt]
  unfold loadFilePair
  simp only [hrc, hfc, hrk, hdec]
  rw [if_pos ⟨hhdr, henc⟩]
  simp only [hpw]
  rcases hd : w.decryptPEMBlock pk pw with e | d
  · rcases e with _ | msg <;> simp [hd]
  · simp only [hd]
    rcases hx : w.x509KeyPair certPemF
        [{ type := pk.type, headers := [], bytes := d }] with e | c <;> simp [hx]

/-- Witness for the amended C8: a fully successful encrypted-key run
shows the prompt, the read and the trailing newline, in order. -/
def w8ok : World := { baseWorld with
  env := envOf [("KES_CLIENT_CERT", "c.pem"), ("KES_CLIENT_KEY", "k.pem")]
  readFile := encFiles }

theorem newClient_prompt_then_newline_witness :
    w8ok.readPasswordResult = .ok "pw" ∧
    (newClient w8ok false).1 = [.fileRead "c.pem", .fileRead "k.pem",
      .writeStderr promptText, .readPassword, .writeStderr "\n"] :=
  ⟨by decide,
    newClient_prompt_then_newline w8ok false "c.pem" "k.pem" [certBlock] [certBlock]
      [encKeyBlock] encKeyBlock "pw"
      (by decide) (by decide) (by decide) (by decide) (by decide) (by decide)
      (by decide) (by decide) (by decide) (by decide) (by decide) (by decide)⟩

end KesInit
